import Mathlib

/-!
Verification of the two MCP adapter servers of this repository
(`src/confluence_server.py` and `src/jira_server.py`) against their
natural-language specification.

The Python sources are shallowly embedded:

* a Python `dict` of string arguments becomes an association list `Args`;
* environment variables become `Option String` fields (with `os.getenv`
  defaults applied by `Option.getD`);
* a Python exception escaping a function becomes `Except.error msg`
  where `msg` is the stringified exception;
* the remote Atlassian client is an oracle (a structure of functions),
  and handlers additionally return the ordered list of remote calls
  they issued, so that call-count properties can be stated;
* Python truthiness of `None` / `""` is modelled explicitly where the
  source relies on it (`title or current_page["title"]`,
  `if not transition_id`).
-/

/-- Mirrors `mcp.types.TextContent`: a text payload with its content type. -/
structure TextContent where
  type : String
  text : String
  deriving Repr, DecidableEq

/-- Shorthand for the `TextContent(type="text", text=...)` constructor calls. -/
def mkText (s : String) : TextContent :=
  { type := "text", text := s }

/-- A tool-invocation argument mapping (Python `dict` with string values),
as an association list with the first binding of a key authoritative. -/
abbrev Args := List (String × String)

/-- Python `arguments.get(key)`: `some v` when the key is present, `none`
otherwise. -/
def argsGet : Args → String → Option String
  | [], _ => none
  | (k, v) :: rest, key => if key = k then some v else argsGet rest key

/-- Python `arguments[key]`: the value when present, otherwise a `KeyError`
whose stringification is the quoted key. -/
def getRequired (args : Args) (key : String) : Except String String :=
  match argsGet args key with
  | some v => Except.ok v
  | none => Except.error ("\x27" ++ key ++ "\x27")

/-- Python `x or y` for `x : Option String`: `y` when `x` is `None` or the
empty string (both falsy), else the value of `x`. -/
def pyOrStr (x : Option String) (y : String) : String :=
  match x with
  | none => y
  | some s => if s = "" then y else s

/-- Python `str.lower()` for the ASCII strings this code compares
(status names, the cloud flag): lowercase every character. -/
def pyLower (s : String) : String :=
  String.mk (s.data.map Char.toLower)

/-!
## Confluence server: configuration and dispatcher
(`src/confluence_server.py`, lines 211-255)
-/

/-- The four environment variables read by `_connect_to_confluence`;
`none` models an unset variable. -/
structure ConfEnv where
  url : Option String
  username : Option String
  api_token : Option String
  cloud : Option String

/-- The retained `atlassian.Confluence` client, holding the credentials it
was constructed with. -/
structure Confluence where
  url : String
  username : String
  password : String
  cloud : Bool
  deriving Repr, DecidableEq

/-- Embeds `_connect_to_confluence` (lines 238-255): read the four
environment variables with their `os.getenv` defaults, raise `ValueError`
when url, username or token is empty, otherwise construct the client. -/
def connectToConfluence (env : ConfEnv) : Except String Confluence :=
  let url := env.url.getD ""
  let username := env.username.getD ""
  let api_token := env.api_token.getD ""
  let cloud := pyLower (env.cloud.getD "true") == "true"
  if url = "" ∨ username = "" ∨ api_token = "" then
    Except.error "CONFLUENCE_URL, CONFLUENCE_USERNAME, and CONFLUENCE_API_TOKEN must be set"
  else
    Except.ok { url := url, username := username, password := api_token, cloud := cloud }

/-- The behaviour of the eight Confluence tool handlers, abstracted as
functions from the argument mapping to either a result list or a raised
exception (their bodies perform network calls, so the dispatcher theorems
quantify over them). -/
structure ConfHandlers where
  search_content : Args → Except String (List TextContent)
  get_page : Args → Except String (List TextContent)
  create_page : Args → Except String (List TextContent)
  update_page : Args → Except String (List TextContent)
  delete_page : Args → Except String (List TextContent)
  get_spaces : Args → Except String (List TextContent)
  get_page_children : Args → Except String (List TextContent)
  add_attachment : Args → Except String (List TextContent)

/-- The `if/elif` dispatch chain inside the `try` block of the Confluence
`call_tool` (lines 216-234): route the eight declared names to their
handlers, and answer `Unknown tool: {name}` for any other name. -/
def confCallToolBody (H : ConfHandlers) (name : String) (args : Args) :
    Except String (List TextContent) :=
  if name = "confluence_search_content" then H.search_content args
  else if name = "confluence_get_page" then H.get_page args
  else if name = "confluence_create_page" then H.create_page args
  else if name = "confluence_update_page" then H.update_page args
  else if name = "confluence_delete_page" then H.delete_page args
  else if name = "confluence_get_spaces" then H.get_spaces args
  else if name = "confluence_get_page_children" then H.get_page_children args
  else if name = "confluence_add_attachment" then H.add_attachment args
  else Except.ok [mkText ("Unknown tool: " ++ name)]

/-- Embeds the Confluence `call_tool` dispatcher (lines 211-236).
The connection attempt for an absent client happens BEFORE the `try`
block, so a `ValueError` from `_connect_to_confluence` propagates out of
the dispatcher (`Except.error`); exceptions raised inside the `try` block
become the `Error: {message}` text result.  The returned pair carries the
client field after the call. -/
def confluenceCallTool (H : ConfHandlers) (env : ConfEnv) (client : Option Confluence)
    (name : String) (args : Args) : Except String (Option Confluence × List TextContent) :=
  match client with
  | some c =>
    match confCallToolBody H name args with
    | Except.ok r => Except.ok (some c, r)
    | Except.error e => Except.ok (some c, [mkText ("Error: " ++ e)])
  | none =>
    match connectToConfluence env with
    | Except.error e => Except.error e
    | Except.ok c =>
      match confCallToolBody H name args with
      | Except.ok r => Except.ok (some c, r)
      | Except.error e => Except.ok (some c, [mkText ("Error: " ++ e)])

/-!
## Jira server: configuration and dispatcher
(`src/jira_server.py`, lines 190-232)
-/

/-- The four environment variables read by `_connect_to_jira`. -/
structure JiraEnv where
  url : Option String
  username : Option String
  api_token : Option String
  cloud : Option String

/-- The retained `atlassian.Jira` client. -/
structure Jira where
  url : String
  username : String
  password : String
  cloud : Bool
  deriving Repr, DecidableEq

/-- Embeds `_connect_to_jira` (lines 215-232). -/
def connectToJira (env : JiraEnv) : Except String Jira :=
  let url := env.url.getD ""
  let username := env.username.getD ""
  let api_token := env.api_token.getD ""
  let cloud := pyLower (env.cloud.getD "true") == "true"
  if url = "" ∨ username = "" ∨ api_token = "" then
    Except.error "JIRA_URL, JIRA_USERNAME, and JIRA_API_TOKEN must be set"
  else
    Except.ok { url := url, username := username, password := api_token, cloud := cloud }

/-- The behaviour of the seven Jira tool handlers, abstracted as in
`ConfHandlers`; `_get_projects` takes no arguments in the dispatch. -/
structure JiraHandlers where
  search_issues : Args → Except String (List TextContent)
  get_issue : Args → Except String (List TextContent)
  create_issue : Args → Except String (List TextContent)
  update_issue : Args → Except String (List TextContent)
  add_comment : Args → Except String (List TextContent)
  transition_issue : Args → Except String (List TextContent)
  get_projects : Except String (List TextContent)

/-- The `if/elif` dispatch chain inside the `try` block of the Jira
`call_tool` (lines 195-211). -/
def jiraCallToolBody (H : JiraHandlers) (name : String) (args : Args) :
    Except String (List TextContent) :=
  if name = "jira_search_issues" then H.search_issues args
  else if name = "jira_get_issue" then H.get_issue args
  else if name = "jira_create_issue" then H.create_issue args
  else if name = "jira_update_issue" then H.update_issue args
  else if name = "jira_add_comment" then H.add_comment args
  else if name = "jira_transition_issue" then H.transition_issue args
  else if name = "jira_get_projects" then H.get_projects
  else Except.ok [mkText ("Unknown tool: " ++ name)]

/-- Embeds the Jira `call_tool` dispatcher (lines 190-213); as on the
Confluence side, the connection attempt precedes the `try` block. -/
def jiraCallTool (H : JiraHandlers) (env : JiraEnv) (client : Option Jira)
    (name : String) (args : Args) : Except String (Option Jira × List TextContent) :=
  match client with
  | some c =>
    match jiraCallToolBody H name args with
    | Except.ok r => Except.ok (some c, r)
    | Except.error e => Except.ok (some c, [mkText ("Error: " ++ e)])
  | none =>
    match connectToJira env with
    | Except.error e => Except.error e
    | Except.ok c =>
      match jiraCallToolBody H name args with
      | Except.ok r => Except.ok (some c, r)
      | Except.error e => Except.ok (some c, [mkText ("Error: " ++ e)])

/-!
## Session-lifetime instrumentation

`call_tool` touches the environment only through `_connect_to_confluence`
/ `_connect_to_jira`, which (a) reads the four environment variables and
(b) constructs and retains the client when the credentials are nonempty.
The events below record exactly those two observable actions of a single
`call_tool` invocation, so that once-only construction can be stated over
a whole sequence of invocations.
-/

/-- An observable action of the session manager: reading the environment
configuration, or constructing the backing API client. -/
inductive ConnEvent : Type
  | envRead : ConnEvent
  | construct : ConnEvent
  deriving Repr, DecidableEq

/-- The session-manager events of one `_connect_to_confluence` run: the
configuration is read; the client is constructed only when the
credential check passes. -/
def confConnectEvents (env : ConfEnv) : List ConnEvent :=
  match connectToConfluence env with
  | Except.ok _ => [ConnEvent.envRead, ConnEvent.construct]
  | Except.error _ => [ConnEvent.envRead]

/-- The client field retained after one dispatcher result: on a normal
return it is the returned field, and an escaped exception leaves the
previously retained client in place. -/
def clientAfter {γ β : Type} (r : Except String (Option γ × β)) (old : Option γ) : Option γ :=
  match r with
  | Except.ok (c, _) => c
  | Except.error _ => old

/-- Runs a sequence of Confluence tool invocations through the dispatcher
in one process, threading the retained client and collecting the
session-manager events; the environment is fixed for the process
lifetime. -/
def confRun (H : ConfHandlers) (env : ConfEnv) :
    Option Confluence → List (String × Args) → Option Confluence × List ConnEvent
  | client, [] => (client, [])
  | client, (name, args) :: rest =>
    let ev := match client with
      | some _ => []
      | none => confConnectEvents env
    let client1 := clientAfter (confluenceCallTool H env client name args) client
    let next := confRun H env client1 rest
    (next.1, ev ++ next.2)

/-- The session-manager events of one `_connect_to_jira` run. -/
def jiraConnectEvents (env : JiraEnv) : List ConnEvent :=
  match connectToJira env with
  | Except.ok _ => [ConnEvent.envRead, ConnEvent.construct]
  | Except.error _ => [ConnEvent.envRead]

/-- Runs a sequence of Jira tool invocations through the dispatcher in
one process, as in `confRun`. -/
def jiraRun (H : JiraHandlers) (env : JiraEnv) :
    Option Jira → List (String × Args) → Option Jira × List ConnEvent
  | client, [] => (client, [])
  | client, (name, args) :: rest =>
    let ev := match client with
      | some _ => []
      | none => jiraConnectEvents env
    let client1 := clientAfter (jiraCallTool H env client name args) client
    let next := jiraRun H env client1 rest
    (next.1, ev ++ next.2)

/-!
## Confluence handlers with remote-call traces
(`_update_page` lines 323-343, `_add_attachment` lines 398-419)
-/

/-- The slice of a page record returned by `get_page_by_id` that
`_update_page` reads (only the title is consulted). -/
structure ConfPage where
  title : String
  deriving Repr, DecidableEq

/-- The slice of the record returned by `update_page` that `_update_page`
reads: the title and the new version number. -/
structure ConfUpdateResult where
  title : String
  versionNumber : Nat
  deriving Repr, DecidableEq

/-- The remote Confluence API as an oracle: the responses the remote
service would give to the calls issued by the handlers under study. -/
structure ConfluenceApi where
  get_page_by_id : String → ConfPage
  update_page : String → String → String → String → ConfUpdateResult

/-- One remote Confluence API call, with the arguments it was issued
with (in source order: `update_page` takes page id, title, body, version
comment; `attach_file` takes file path, page id, comment). -/
inductive ConfCall : Type
  | get_page_by_id (page_id : String)
  | update_page (page_id : String) (title : String) (body : String) (version_comment : String)
  | attach_file (file_path : String) (page_id : String) (comment : String)
  deriving Repr, DecidableEq

/-- Embeds `_update_page` (lines 323-343): required `page_id` and
`content`, optional `title` (Python `or` falls back to the fetched
current title), `version_comment` defaulting to `Updated via MCP`; one
`get_page_by_id` read, then one `update_page` write; confirmation text
carries the returned title and version number.  The second component is
the ordered remote-call trace. -/
def updatePageHandler (api : ConfluenceApi) (args : Args) :
    Except String (List TextContent × List ConfCall) := do
  let page_id ← getRequired args "page_id"
  let content ← getRequired args "content"
  let title := argsGet args "title"
  let version_comment := (argsGet args "version_comment").getD "Updated via MCP"
  let current_page := api.get_page_by_id page_id
  let newTitle := pyOrStr title current_page.title
  let result := api.update_page page_id newTitle content version_comment
  Except.ok
    ([mkText ("Updated page: " ++ result.title ++ "\nVersion: " ++ toString result.versionNumber)],
     [ConfCall.get_page_by_id page_id,
      ConfCall.update_page page_id newTitle content version_comment])

/-- Splits a character list on the `/` separator (the recursion behind
`os.path.basename` for forward-slash paths). -/
def splitSlash : List Char → List (List Char)
  | [] => [[]]
  | c :: cs =>
    let rest := splitSlash cs
    if c = '/' then [] :: rest
    else
      match rest with
      | [] => [[c]]
      | g :: gs => (c :: g) :: gs

/-- Python `os.path.basename` for forward-slash paths: the part after
the last separator. -/
def basename (p : String) : String :=
  String.mk ((splitSlash p.data).getLastD [])

/-- Embeds `_add_attachment` (lines 398-419): required `page_id` and
`file_path`, optional `comment` defaulting to the empty string; when the
path does not exist locally (`existing` is the set of paths present on
the filesystem) return a not-found text result with an empty call trace,
otherwise issue exactly one `attach_file` upload and confirm. -/
def addAttachmentHandler (existing : List String) (args : Args) :
    Except String (List TextContent × List ConfCall) := do
  let page_id ← getRequired args "page_id"
  let file_path ← getRequired args "file_path"
  let comment := (argsGet args "comment").getD ""
  if existing.contains file_path then
    Except.ok
      ([mkText ("Attached file: " ++ basename file_path ++ " to page " ++ page_id)],
       [ConfCall.attach_file file_path page_id comment])
  else
    Except.ok ([mkText ("Error: File not found: " ++ file_path)], [])

/-!
## Jira handlers with remote-call traces
(`_create_issue` lines 286-308, `_transition_issue` lines 344-371)
-/

/-- One entry of the `transitions` list returned by
`get_issue_transitions`: its id and the name of the status it leads to
(`transition["to"]["name"]`). -/
structure JiraTransition where
  id : String
  toName : String
  deriving Repr, DecidableEq

/-- A value of the field map built by `_create_issue`: a plain string, a
`{"key": ...}` reference object, or a `{"name": ...}` reference object. -/
inductive FieldVal : Type
  | str (v : String)
  | keyRef (k : String)
  | nameRef (n : String)
  deriving Repr, DecidableEq

/-- The slice of the record returned by `create_issue` that
`_create_issue` reads: the new issue key and its self-link. -/
structure JiraCreateResult where
  key : String
  self : String
  deriving Repr, DecidableEq

/-- The remote Jira API as an oracle. -/
structure JiraApi where
  get_issue_transitions : String → List JiraTransition
  create_issue : List (String × FieldVal) → JiraCreateResult

/-- One remote Jira API call with its arguments; `create_issue` carries
the field map that was sent. -/
inductive JiraCall : Type
  | get_issue_transitions (issue_key : String)
  | set_issue_status (issue_key : String) (transition_id : String)
  | create_issue (fields : List (String × FieldVal))
  deriving Repr, DecidableEq

/-- The linear scan of `_transition_issue` (lines 353-357): walk the
transitions in order and take the id of the first one whose target name
matches the requested status case-insensitively; `none` when the scan
sets no id. -/
def findTransitionId : List JiraTransition → String → Option String
  | [], _ => none
  | t :: ts, target =>
    if pyLower t.toName = pyLower target then some t.id
    else findTransitionId ts target

/-- Python `if not transition_id` on the scan result: truthy-false for
`None` and for the empty string. -/
def pyFalsyOptStr : Option String → Bool
  | none => true
  | some s => s = ""

/-- Embeds `_transition_issue` (lines 344-371): fetch the available
transitions, linear-scan for a case-insensitive target-name match; when
the scan leaves a falsy id, report the available target names as a text
result without calling `set_issue_status`; otherwise apply the matched
transition id and confirm. -/
def transitionIssueHandler (api : JiraApi) (args : Args) :
    Except String (List TextContent × List JiraCall) := do
  let issue_key ← getRequired args "issue_key"
  let target_status ← getRequired args "status"
  let transitions := api.get_issue_transitions issue_key
  let transition_id := findTransitionId transitions target_status
  if pyFalsyOptStr transition_id then
    let available := transitions.map JiraTransition.toName
    Except.ok
      ([mkText ("Cannot transition to \x27" ++ target_status ++ "\x27. Available statuses: "
          ++ String.intercalate ", " available)],
       [JiraCall.get_issue_transitions issue_key])
  else
    let tid := transition_id.getD ""
    Except.ok
      ([mkText ("Transitioned issue " ++ issue_key ++ " to status: " ++ target_status)],
       [JiraCall.get_issue_transitions issue_key,
        JiraCall.set_issue_status issue_key tid])

/-- The field map built by `_create_issue` (lines 288-301): project key,
summary and issue type (defaulting to `Task`) always; description,
priority and assignee appended only when the argument key is supplied,
priority and assignee as `{"name": ...}` reference objects. -/
def createIssueFields (args : Args) (project_key : String) (summary : String) :
    List (String × FieldVal) :=
  let fields :=
    [("project", FieldVal.keyRef project_key),
     ("summary", FieldVal.str summary),
     ("issuetype", FieldVal.nameRef ((argsGet args "issue_type").getD "Task"))]
  let fields := match argsGet args "description" with
    | some d => fields ++ [("description", FieldVal.str d)]
    | none => fields
  let fields := match argsGet args "priority" with
    | some p => fields ++ [("priority", FieldVal.nameRef p)]
    | none => fields
  let fields := match argsGet args "assignee" with
    | some a => fields ++ [("assignee", FieldVal.nameRef a)]
    | none => fields
  fields

/-- Embeds `_create_issue` (lines 286-308): required `project_key` and
`summary`, the field map of `createIssueFields`, one `create_issue`
remote call, and a confirmation carrying the returned key and
self-link. -/
def createIssueHandler (api : JiraApi) (args : Args) :
    Except String (List TextContent × List JiraCall) := do
  let project_key ← getRequired args "project_key"
  let summary ← getRequired args "summary"
  let fields := createIssueFields args project_key summary
  let result := api.create_issue fields
  Except.ok
    ([mkText ("Created issue: " ++ result.key ++ "\nURL: " ++ result.self)],
     [JiraCall.create_issue fields])

/-!
## Jira response projections
(`_get_issue` lines 260-284, `_search_issues` lines 234-258)
-/

/-- A user object in a remote issue response (`assignee`, `reporter`):
its optional `displayName`. -/
structure UserObj where
  displayName : Option String
  deriving Repr, DecidableEq

/-- A named reference object in a remote issue response (`status`,
`priority`, `issuetype`): its optional `name`. -/
structure NamedObj where
  name : Option String
  deriving Repr, DecidableEq

/-- A project reference object in a remote issue response: its optional
`key`. -/
structure ProjectObj where
  key : Option String
  deriving Repr, DecidableEq

/-- The `fields` object of a well-formed remote issue response.  `none`
models a field whose key is absent or whose value is `null`/empty: every
consumer below either guards the field with a Python truthiness test or,
for the plain-string fields, is only applied to well-formed responses
where the value is a string when present, so the two cases are not
distinguished by the code under study. -/
structure IssueFields where
  summary : Option String
  description : Option String
  status : Option NamedObj
  assignee : Option UserObj
  reporter : Option UserObj
  created : Option String
  updated : Option String
  priority : Option NamedObj
  issuetype : Option NamedObj
  project : Option ProjectObj
  deriving Repr, DecidableEq

/-- A remote issue record: its key and its `fields` object. -/
structure RemoteIssue where
  key : String
  fields : IssueFields
  deriving Repr, DecidableEq

/-- Mirrors the pydantic `JiraIssue` model of `src/jira_server.py`
(lines 26-38). -/
structure JiraIssue where
  key : String
  summary : String
  description : Option String
  status : String
  assignee : Option String
  reporter : String
  created : String
  updated : String
  priority : Option String
  issue_type : String
  project : String
  deriving Repr, DecidableEq

/-- The projection built by `_get_issue` (lines 267-279): `assignee` and
`priority` stay absent (`none`) when the response field is missing, and
otherwise default their inner name to the empty string; `description`
is always a string (possibly empty). -/
def getIssueDetails (issue : RemoteIssue) : JiraIssue :=
  let fields := issue.fields
  { key := issue.key
  , summary := fields.summary.getD ""
  , description := some (fields.description.getD "")
  , status := match fields.status with
      | some st => st.name.getD ""
      | none => ""
  , assignee := match fields.assignee with
      | some u => some (u.displayName.getD "")
      | none => none
  , reporter := match fields.reporter with
      | some u => u.displayName.getD ""
      | none => ""
  , created := fields.created.getD ""
  , updated := fields.updated.getD ""
  , priority := match fields.priority with
      | some p => some (p.name.getD "")
      | none => none
  , issue_type := match fields.issuetype with
      | some t => t.name.getD ""
      | none => ""
  , project := match fields.project with
      | some p => p.key.getD ""
      | none => "" }

/-- One formatted hit of `_search_issues` (lines 245-253). -/
structure SearchItem where
  key : String
  summary : String
  status : String
  assignee : String
  priority : String
  created : String
  updated : String
  deriving Repr, DecidableEq

/-- The per-hit projection of `_search_issues` (lines 245-253): a missing
assignee renders as the string `Unassigned`, a missing priority as the
empty string. -/
def searchIssueItem (issue : RemoteIssue) : SearchItem :=
  let fields := issue.fields
  { key := issue.key
  , summary := fields.summary.getD ""
  , status := match fields.status with
      | some st => st.name.getD ""
      | none => ""
  , assignee := match fields.assignee with
      | some u => u.displayName.getD "Unassigned"
      | none => "Unassigned"
  , priority := match fields.priority with
      | some p => p.name.getD ""
      | none => ""
  , created := fields.created.getD ""
  , updated := fields.updated.getD "" }

/-!
## Concrete instances used to evaluate the theorems
-/

/-- A handler assignment whose handlers all succeed with an empty result
list, used to evaluate the dispatcher at concrete inputs. -/
def trivialConfHandlers : ConfHandlers where
  search_content := fun _ => Except.ok []
  get_page := fun _ => Except.ok []
  create_page := fun _ => Except.ok []
  update_page := fun _ => Except.ok []
  delete_page := fun _ => Except.ok []
  get_spaces := fun _ => Except.ok []
  get_page_children := fun _ => Except.ok []
  add_attachment := fun _ => Except.ok []

/-- A Jira handler assignment whose handlers all succeed with an empty
result list. -/
def trivialJiraHandlers : JiraHandlers where
  search_issues := fun _ => Except.ok []
  get_issue := fun _ => Except.ok []
  create_issue := fun _ => Except.ok []
  update_issue := fun _ => Except.ok []
  add_comment := fun _ => Except.ok []
  transition_issue := fun _ => Except.ok []
  get_projects := Except.ok []

/-- An environment with all four variables unset. -/
def confEnvUnset : ConfEnv := { url := none, username := none, api_token := none, cloud := none }

/-- An environment with all four Jira variables unset. -/
def jiraEnvUnset : JiraEnv := { url := none, username := none, api_token := none, cloud := none }

/-- A fully configured Confluence environment. -/
def confEnvSet : ConfEnv :=
  { url := some "https://wiki.example", username := some "u@example", api_token := some "tok", cloud := none }

/-- An already-constructed Confluence client. -/
def confClient : Confluence :=
  { url := "https://wiki.example", username := "u@example", password := "tok", cloud := true }

/-- A fully configured Jira environment. -/
def jiraEnvSet : JiraEnv :=
  { url := some "https://jira.example", username := some "u@example", api_token := some "tok", cloud := none }

/-- An already-constructed Jira client. -/
def jiraClient : Jira :=
  { url := "https://jira.example", username := "u@example", password := "tok", cloud := true }

/-!
## Claim theorems
-/

/-- Reduction of the `do`-notation bind on a successful `Except` value,
used to unfold the handler embeddings in proofs. -/
theorem except_ok_bind {ε α β : Type} (a : α) (f : α → Except ε β) :
    (Except.ok a : Except ε α) >>= f = f a := rfl

/-- Reduction of the `do`-notation bind on a raised `Except` value. -/
theorem except_error_bind {ε α β : Type} (e : ε) (f : α → Except ε β) :
    (Except.error e : Except ε α) >>= f = Except.error e := rfl

/-- C1 (divergence witness): with every credential variable unset and no
client yet constructed, invoking a declared tool makes `call_tool` raise
the `ValueError` of `_connect_to_confluence` / `_connect_to_jira` out of
the dispatcher (`Except.error`), instead of returning a text result
beginning `Error:` — because the connection attempt happens before the
`try` block.  This contradicts the claim for both servers. -/
theorem dispatcher_missing_credentials_raises :
    confluenceCallTool trivialConfHandlers confEnvUnset none "confluence_get_page" []
      = Except.error "CONFLUENCE_URL, CONFLUENCE_USERNAME, and CONFLUENCE_API_TOKEN must be set"
    ∧ jiraCallTool trivialJiraHandlers jiraEnvUnset none "jira_get_issue" []
      = Except.error "JIRA_URL, JIRA_USERNAME, and JIRA_API_TOKEN must be set" := by
  constructor <;> rfl

/-- C2: for either server, whenever the dispatched handler raises
(`confCallToolBody` / `jiraCallToolBody` yields `Except.error e` — which
only the eight / seven declared branches can), the dispatcher catches it
at its single boundary and returns the text `Error: {e}`, the
stringified exception, with no retry and no further classification;
stated both for an already-established client and for a first call whose
connection succeeds. -/
theorem dispatcher_catches_handler_errors :
    (∀ (H : ConfHandlers) (env : ConfEnv) (c : Confluence) (name : String) (args : Args) (e : String),
        confCallToolBody H name args = Except.error e →
        confluenceCallTool H env (some c) name args
          = Except.ok (some c, [mkText ("Error: " ++ e)]))
    ∧ (∀ (H : ConfHandlers) (env : ConfEnv) (c : Confluence) (name : String) (args : Args) (e : String),
        connectToConfluence env = Except.ok c →
        confCallToolBody H name args = Except.error e →
        confluenceCallTool H env none name args
          = Except.ok (some c, [mkText ("Error: " ++ e)]))
    ∧ (∀ (H : JiraHandlers) (env : JiraEnv) (c : Jira) (name : String) (args : Args) (e : String),
        jiraCallToolBody H name args = Except.error e →
        jiraCallTool H env (some c) name args
          = Except.ok (some c, [mkText ("Error: " ++ e)]))
    ∧ (∀ (H : JiraHandlers) (env : JiraEnv) (c : Jira) (name : String) (args : Args) (e : String),
        connectToJira env = Except.ok c →
        jiraCallToolBody H name args = Except.error e →
        jiraCallTool H env none name args
          = Except.ok (some c, [mkText ("Error: " ++ e)])) := by
  refine ⟨?_, ?_, ?_, ?_⟩
  · intro H env c name args e h
    simp [confluenceCallTool, h]
  · intro H env c name args e hc h
    simp [confluenceCallTool, hc, h]
  · intro H env c name args e h
    simp [jiraCallTool, h]
  · intro H env c name args e hc h
    simp [jiraCallTool, hc, h]

/-- A Confluence handler assignment in which the get-page handler raises
with message `boom`. -/
def failingConfHandlers : ConfHandlers :=
  { trivialConfHandlers with get_page := fun _ => Except.error "boom" }

/-- C2 witness: the dispatcher converts the raised `boom` of the
get-page handler into the text result `Error: boom`. -/
theorem dispatcher_catches_handler_errors_witness :
    confluenceCallTool failingConfHandlers confEnvUnset (some confClient) "confluence_get_page" []
      = Except.ok (some confClient, [mkText "Error: boom"]) := by
  exact dispatcher_catches_handler_errors.1 failingConfHandlers confEnvUnset confClient
    "confluence_get_page" [] "boom" (by rfl)

/-- The eight tool names the Confluence dispatch chain recognises. -/
def confToolNames : List String :=
  ["confluence_search_content", "confluence_get_page", "confluence_create_page",
   "confluence_update_page", "confluence_delete_page", "confluence_get_spaces",
   "confluence_get_page_children", "confluence_add_attachment"]

/-- The seven tool names the Jira dispatch chain recognises. -/
def jiraToolNames : List String :=
  ["jira_search_issues", "jira_get_issue", "jira_create_issue", "jira_update_issue",
   "jira_add_comment", "jira_transition_issue", "jira_get_projects"]

/-- C3 counterexample: invoking the undeclared name `bogus_tool` while no
client is constructed and the credentials are unset makes the dispatcher
raise the connection `ValueError` instead of returning the text
`Unknown tool: bogus_tool` — the claim promises the text and absence of
an exception for ANY argument mapping. -/
theorem unknown_tool_raises_without_credentials :
    confluenceCallTool trivialConfHandlers confEnvUnset none "bogus_tool" []
      = Except.error "CONFLUENCE_URL, CONFLUENCE_USERNAME, and CONFLUENCE_API_TOKEN must be set" := by
  rfl

/-- C3 (amended): provided the connection step cannot fail — the client
is already constructed, or constructing it from the environment
succeeds — invoking a name outside the declared dispatch chain returns
exactly the text `Unknown tool: {name}` and never raises, for both
servers. -/
theorem unknown_tool_returns_text :
    (∀ (H : ConfHandlers) (env : ConfEnv) (c : Confluence) (name : String) (args : Args),
        name ∉ confToolNames →
        confluenceCallTool H env (some c) name args
          = Except.ok (some c, [mkText ("Unknown tool: " ++ name)]))
    ∧ (∀ (H : ConfHandlers) (env : ConfEnv) (c : Confluence) (name : String) (args : Args),
        name ∉ confToolNames → connectToConfluence env = Except.ok c →
        confluenceCallTool H env none name args
          = Except.ok (some c, [mkText ("Unknown tool: " ++ name)]))
    ∧ (∀ (H : JiraHandlers) (env : JiraEnv) (c : Jira) (name : String) (args : Args),
        name ∉ jiraToolNames →
        jiraCallTool H env (some c) name args
          = Except.ok (some c, [mkText ("Unknown tool: " ++ name)]))
    ∧ (∀ (H : JiraHandlers) (env : JiraEnv) (c : Jira) (name : String) (args : Args),
        name ∉ jiraToolNames → connectToJira env = Except.ok c →
        jiraCallTool H env none name args
          = Except.ok (some c, [mkText ("Unknown tool: " ++ name)])) := by
  have confBody : ∀ (H : ConfHandlers) (name : String) (args : Args), name ∉ confToolNames →
      confCallToolBody H name args = Except.ok [mkText ("Unknown tool: " ++ name)] := by
    intro H name args h
    simp only [confToolNames, List.mem_cons, List.not_mem_nil, or_false, not_or] at h
    obtain ⟨h1, h2, h3, h4, h5, h6, h7, h8⟩ := h
    simp [confCallToolBody, h1, h2, h3, h4, h5, h6, h7, h8]
  have jiraBody : ∀ (H : JiraHandlers) (name : String) (args : Args), name ∉ jiraToolNames →
      jiraCallToolBody H name args = Except.ok [mkText ("Unknown tool: " ++ name)] := by
    intro H name args h
    simp only [jiraToolNames, List.mem_cons, List.not_mem_nil, or_false, not_or] at h
    obtain ⟨h1, h2, h3, h4, h5, h6, h7⟩ := h
    simp [jiraCallToolBody, h1, h2, h3, h4, h5, h6, h7]
  refine ⟨?_, ?_, ?_, ?_⟩
  · intro H env c name args h
    simp [confluenceCallTool, confBody H name args h]
  · intro H env c name args h hc
    simp [confluenceCallTool, hc, confBody H name args h]
  · intro H env c name args h
    simp [jiraCallTool, jiraBody H name args h]
  · intro H env c name args h hc
    simp [jiraCallTool, hc, jiraBody H name args h]

/-- C3 witness: with an established client, the undeclared name
`confluence_rename_page` yields exactly the unknown-tool text. -/
theorem unknown_tool_returns_text_witness :
    confluenceCallTool trivialConfHandlers confEnvUnset (some confClient) "confluence_rename_page" []
      = Except.ok (some confClient, [mkText "Unknown tool: confluence_rename_page"]) := by
  exact unknown_tool_returns_text.1 trivialConfHandlers confEnvUnset confClient
    "confluence_rename_page" [] (by decide)

/-- C4: for every update-page invocation that supplies no title
argument, the handler issues exactly one `get_page_by_id` read followed
by one `update_page` write — two remote calls in total — passing the
fetched current title unchanged; the version comment sent is the
supplied one, falling back (`Option.getD`) to the default
`Updated via MCP` exactly when none is supplied; and the handler
returns a confirmation carrying the new version number returned by the
write. -/
theorem update_page_preserves_title :
    ∀ (api : ConfluenceApi) (args : Args) (pid content : String),
      argsGet args "page_id" = some pid →
      argsGet args "content" = some content →
      argsGet args "title" = none →
      updatePageHandler api args =
        Except.ok
          ([mkText ("Updated page: "
              ++ (api.update_page pid (api.get_page_by_id pid).title content
                    ((argsGet args "version_comment").getD "Updated via MCP")).title
              ++ "\nVersion: "
              ++ toString (api.update_page pid (api.get_page_by_id pid).title content
                    ((argsGet args "version_comment").getD "Updated via MCP")).versionNumber)],
           [ConfCall.get_page_by_id pid,
            ConfCall.update_page pid (api.get_page_by_id pid).title content
              ((argsGet args "version_comment").getD "Updated via MCP")]) := by
  intro api args pid content h1 h2 h3
  simp [updatePageHandler, getRequired, h1, h2, h3, pyOrStr, except_ok_bind]

/-- A concrete remote Confluence oracle: page 99 is titled `Home`, and
the write answers with title `Home` at version 4. -/
def demoConfApi : ConfluenceApi where
  get_page_by_id := fun _ => { title := "Home" }
  update_page := fun _ _ _ _ => { title := "Home", versionNumber := 4 }

/-- C4 witness: updating page 99 without a title against `demoConfApi`
issues the read then the write with the fetched title `Home` and
reports version 4 — with the default comment `Updated via MCP` when no
version comment is supplied, and with the supplied comment `typo fix`
when one is. -/
theorem update_page_preserves_title_witness :
    updatePageHandler demoConfApi [("page_id", "99"), ("content", "<p>x</p>")] =
      Except.ok
        ([mkText "Updated page: Home\nVersion: 4"],
         [ConfCall.get_page_by_id "99",
          ConfCall.update_page "99" "Home" "<p>x</p>" "Updated via MCP"])
    ∧ updatePageHandler demoConfApi
        [("page_id", "99"), ("content", "<p>x</p>"), ("version_comment", "typo fix")] =
      Except.ok
        ([mkText "Updated page: Home\nVersion: 4"],
         [ConfCall.get_page_by_id "99",
          ConfCall.update_page "99" "Home" "<p>x</p>" "typo fix"]) := by
  constructor
  · exact update_page_preserves_title demoConfApi [("page_id", "99"), ("content", "<p>x</p>")]
      "99" "<p>x</p>" (by rfl) (by rfl) (by rfl)
  · exact update_page_preserves_title demoConfApi
      [("page_id", "99"), ("content", "<p>x</p>"), ("version_comment", "typo fix")]
      "99" "<p>x</p>" (by rfl) (by rfl) (by rfl)

/-- C10: an explicit empty-string title argument is falsy in the Python
`title or current_page["title"]`, so the write is issued with the
fetched current title — the same behaviour as an absent title — and the
page title is preserved rather than set to the empty string. -/
theorem update_page_empty_title_preserved :
    ∀ (api : ConfluenceApi) (args : Args) (pid content : String),
      argsGet args "page_id" = some pid →
      argsGet args "content" = some content →
      argsGet args "title" = some "" →
      updatePageHandler api args =
        Except.ok
          ([mkText ("Updated page: "
              ++ (api.update_page pid (api.get_page_by_id pid).title content
                    ((argsGet args "version_comment").getD "Updated via MCP")).title
              ++ "\nVersion: "
              ++ toString (api.update_page pid (api.get_page_by_id pid).title content
                    ((argsGet args "version_comment").getD "Updated via MCP")).versionNumber)],
           [ConfCall.get_page_by_id pid,
            ConfCall.update_page pid (api.get_page_by_id pid).title content
              ((argsGet args "version_comment").getD "Updated via MCP")]) := by
  intro api args pid content h1 h2 h3
  simp [updatePageHandler, getRequired, h1, h2, h3, pyOrStr, except_ok_bind]

/-- C10 witness: supplying `title = ""` against `demoConfApi` issues the
write with the fetched title `Home`. -/
theorem update_page_empty_title_preserved_witness :
    updatePageHandler demoConfApi [("page_id", "99"), ("content", "<p>x</p>"), ("title", "")] =
      Except.ok
        ([mkText "Updated page: Home\nVersion: 4"],
         [ConfCall.get_page_by_id "99",
          ConfCall.update_page "99" "Home" "<p>x</p>" "Updated via MCP"]) := by
  exact update_page_empty_title_preserved demoConfApi
    [("page_id", "99"), ("content", "<p>x</p>"), ("title", "")]
    "99" "<p>x</p>" (by rfl) (by rfl) (by rfl)

/-- A remote Jira oracle whose only transition for any issue carries the
empty string as id while leading to status `Done`. -/
def emptyIdJiraApi : JiraApi where
  get_issue_transitions := fun _ => [{ id := "", toName := "Done" }]
  create_issue := fun _ => { key := "X-1", self := "https://jira.example/X-1" }

/-- C5 counterexample: against `emptyIdJiraApi` the linear scan for
`done` finds a case-insensitive match (the transition with id `""`), yet
the handler takes the no-match branch — `if not transition_id` is also
true for a matched empty-string id — so it returns the
cannot-transition text and never calls the status-setting API, where the
claim requires a `set_issue_status` call with the matching id. -/
theorem transition_match_with_empty_id_not_applied :
    findTransitionId (emptyIdJiraApi.get_issue_transitions "PROJ-1") "done" = some ""
    ∧ transitionIssueHandler emptyIdJiraApi [("issue_key", "PROJ-1"), ("status", "done")]
        = Except.ok
            ([mkText "Cannot transition to \x27done\x27. Available statuses: Done"],
             [JiraCall.get_issue_transitions "PROJ-1"]) := by
  constructor <;> rfl

/-- C5 (amended): the target status is matched case-insensitively by the
linear scan `findTransitionId`, taking the first match; when the scan
result is falsy — no transition matches, or the first matching
transition's id is the empty string — the handler returns a text result
listing exactly the available target status names and never calls the
status-setting API; when the first match has a nonempty id, the
status-setting API is called exactly once with that id.  The last
conjunct ties the falsy scan result `none` to the absence of any
case-insensitive match. -/
theorem transition_issue_matching :
    ∀ (api : JiraApi) (args : Args) (key target : String),
      argsGet args "issue_key" = some key →
      argsGet args "status" = some target →
      (pyFalsyOptStr (findTransitionId (api.get_issue_transitions key) target) = true →
        transitionIssueHandler api args
          = Except.ok
              ([mkText ("Cannot transition to \x27" ++ target ++ "\x27. Available statuses: "
                  ++ String.intercalate ", " ((api.get_issue_transitions key).map JiraTransition.toName))],
               [JiraCall.get_issue_transitions key]))
      ∧ (∀ tid, findTransitionId (api.get_issue_transitions key) target = some tid → tid ≠ "" →
          transitionIssueHandler api args
            = Except.ok
                ([mkText ("Transitioned issue " ++ key ++ " to status: " ++ target)],
                 [JiraCall.get_issue_transitions key, JiraCall.set_issue_status key tid]))
      ∧ ((∀ t ∈ api.get_issue_transitions key, pyLower t.toName ≠ pyLower target) →
          findTransitionId (api.get_issue_transitions key) target = none) := by
  intro api args key target h1 h2
  refine ⟨?_, ?_, ?_⟩
  · intro hfalsy
    simp [transitionIssueHandler, getRequired, h1, h2, hfalsy, except_ok_bind]
  · intro tid hfound hne
    have hfalsy : pyFalsyOptStr (findTransitionId (api.get_issue_transitions key) target) = false := by
      rw [hfound]
      simp [pyFalsyOptStr, hne]
    simp [transitionIssueHandler, getRequired, h1, h2, hfalsy, hfound, except_ok_bind]
    simp [pyFalsyOptStr, hne]
  · have aux : ∀ (L : List JiraTransition),
        (∀ t ∈ L, pyLower t.toName ≠ pyLower target) → findTransitionId L target = none := by
      intro L
      induction L with
      | nil => intro _; rfl
      | cons t ts ih =>
        intro hnone
        have hne : pyLower t.toName ≠ pyLower target := hnone t (List.mem_cons_self t ts)
        have hrest : ∀ u ∈ ts, pyLower u.toName ≠ pyLower target := by
          intro u hu
          exact hnone u (List.mem_cons_of_mem t hu)
        simp [findTransitionId, hne, ih hrest]
    exact aux (api.get_issue_transitions key)

/-- A remote Jira oracle offering the transitions `Done` (id 11) and
`In Review` (id 21). -/
def demoJiraApi : JiraApi where
  get_issue_transitions := fun _ =>
    [{ id := "11", toName := "Done" }, { id := "21", toName := "In Review" }]
  create_issue := fun _ => { key := "PROJ-7", self := "https://jira.example/rest/api/2/issue/7" }

/-- C5 witness: requesting `done` against available `Done` / `In Review`
calls the status-setting API exactly once with the matching id 11, and
requesting `Blocked` yields the text listing exactly the available
names without a status-setting call. -/
theorem transition_issue_matching_witness :
    transitionIssueHandler demoJiraApi [("issue_key", "PROJ-1"), ("status", "done")]
      = Except.ok
          ([mkText "Transitioned issue PROJ-1 to status: done"],
           [JiraCall.get_issue_transitions "PROJ-1", JiraCall.set_issue_status "PROJ-1" "11"])
    ∧ transitionIssueHandler demoJiraApi [("issue_key", "PROJ-1"), ("status", "Blocked")]
      = Except.ok
          ([mkText "Cannot transition to \x27Blocked\x27. Available statuses: Done, In Review"],
           [JiraCall.get_issue_transitions "PROJ-1"]) := by
  constructor
  · exact (transition_issue_matching demoJiraApi [("issue_key", "PROJ-1"), ("status", "done")]
      "PROJ-1" "done" (by rfl) (by rfl)).2.1 "11" (by decide) (by decide)
  · exact (transition_issue_matching demoJiraApi [("issue_key", "PROJ-1"), ("status", "Blocked")]
      "PROJ-1" "Blocked" (by rfl) (by rfl)).1 (by decide)

/-- C6: when the attachment file path is not on the local filesystem
(`existing.contains fp = false`), the handler returns the text
`Error: File not found: {path}` as a normal result with an empty remote
trace — the upload API is never called and nothing is raised; when the
path exists, exactly one `attach_file` upload is issued with the
supplied comment (defaulting to the empty string) and a confirmation is
returned. -/
theorem add_attachment_checks_file :
    ∀ (existing : List String) (args : Args) (pid fp : String),
      argsGet args "page_id" = some pid →
      argsGet args "file_path" = some fp →
      (existing.contains fp = false →
        addAttachmentHandler existing args
          = Except.ok ([mkText ("Error: File not found: " ++ fp)], []))
      ∧ (existing.contains fp = true →
        addAttachmentHandler existing args
          = Except.ok
              ([mkText ("Attached file: " ++ basename fp ++ " to page " ++ pid)],
               [ConfCall.attach_file fp pid ((argsGet args "comment").getD "")])) := by
  intro existing args pid fp h1 h2
  constructor
  · intro habs
    simp [addAttachmentHandler, getRequired, h1, h2, habs, except_ok_bind]
    simpa using habs
  · intro hpres
    simp [addAttachmentHandler, getRequired, h1, h2, hpres, except_ok_bind]
    simpa using hpres

/-- C6 witness: with only `/tmp/a.txt` present, attaching the absent
`/tmp/b.txt` yields the not-found text and no upload, and attaching
`/tmp/a.txt` issues the upload with the default empty comment. -/
theorem add_attachment_checks_file_witness :
    addAttachmentHandler ["/tmp/a.txt"] [("page_id", "7"), ("file_path", "/tmp/b.txt")]
      = Except.ok ([mkText "Error: File not found: /tmp/b.txt"], [])
    ∧ addAttachmentHandler ["/tmp/a.txt"] [("page_id", "7"), ("file_path", "/tmp/a.txt")]
      = Except.ok
          ([mkText "Attached file: a.txt to page 7"],
           [ConfCall.attach_file "/tmp/a.txt" "7" ""]) := by
  constructor
  · exact (add_attachment_checks_file ["/tmp/a.txt"]
      [("page_id", "7"), ("file_path", "/tmp/b.txt")] "7" "/tmp/b.txt"
      (by rfl) (by rfl)).1 (by decide)
  · exact (add_attachment_checks_file ["/tmp/a.txt"]
      [("page_id", "7"), ("file_path", "/tmp/a.txt")] "7" "/tmp/a.txt"
      (by rfl) (by rfl)).2 (by decide)

/-- Association-list lookup by key, used to state which entries the
`_create_issue` field map contains. -/
def lookupKey {α : Type} : List (String × α) → String → Option α
  | [], _ => none
  | (k, v) :: rest, key => if key = k then some v else lookupKey rest key

/-- C7: with project key and summary present, the field map sent to the
single remote `create_issue` call contains the project key (as a
`{"key"}` reference), the summary, and the issue type name defaulting
to `Task` when omitted; description, priority and assignee appear in
the map exactly when the corresponding argument is supplied, priority
and assignee as `{"name"}` reference objects; and the result text
carries the created issue's key and self-link. -/
theorem create_issue_field_map :
    ∀ (api : JiraApi) (args : Args) (pk sm : String),
      argsGet args "project_key" = some pk →
      argsGet args "summary" = some sm →
      createIssueHandler api args
        = Except.ok
            ([mkText ("Created issue: " ++ (api.create_issue (createIssueFields args pk sm)).key
                ++ "\nURL: " ++ (api.create_issue (createIssueFields args pk sm)).self)],
             [JiraCall.create_issue (createIssueFields args pk sm)])
      ∧ lookupKey (createIssueFields args pk sm) "project" = some (FieldVal.keyRef pk)
      ∧ lookupKey (createIssueFields args pk sm) "summary" = some (FieldVal.str sm)
      ∧ lookupKey (createIssueFields args pk sm) "issuetype"
          = some (FieldVal.nameRef ((argsGet args "issue_type").getD "Task"))
      ∧ lookupKey (createIssueFields args pk sm) "description"
          = (argsGet args "description").map FieldVal.str
      ∧ lookupKey (createIssueFields args pk sm) "priority"
          = (argsGet args "priority").map FieldVal.nameRef
      ∧ lookupKey (createIssueFields args pk sm) "assignee"
          = (argsGet args "assignee").map FieldVal.nameRef := by
  intro api args pk sm h1 h2
  refine ⟨?_, ?_, ?_, ?_, ?_, ?_, ?_⟩
  · simp [createIssueHandler, getRequired, h1, h2, except_ok_bind]
  all_goals
    rcases hd : argsGet args "description" with _ | d <;>
    rcases hp : argsGet args "priority" with _ | p <;>
    rcases ha : argsGet args "assignee" with _ | a <;>
      simp [createIssueFields, lookupKey, hd, hp, ha]

/-- A fully optional-supplied create-issue argument mapping. -/
def demoCreateArgs : Args :=
  [("project_key", "PROJ"), ("summary", "Fix login"), ("description", "Broken SSO"),
   ("priority", "High"), ("assignee", "bob")]

/-- C7 witness: creating with all optional fields supplied sends the
six-entry field map and reports the key and self-link returned by
`demoJiraApi`. -/
theorem create_issue_field_map_witness :
    createIssueHandler demoJiraApi demoCreateArgs
      = Except.ok
          ([mkText "Created issue: PROJ-7\nURL: https://jira.example/rest/api/2/issue/7"],
           [JiraCall.create_issue
              [("project", FieldVal.keyRef "PROJ"), ("summary", FieldVal.str "Fix login"),
               ("issuetype", FieldVal.nameRef "Task"), ("description", FieldVal.str "Broken SSO"),
               ("priority", FieldVal.nameRef "High"), ("assignee", FieldVal.nameRef "bob")]])
    ∧ lookupKey (createIssueFields demoCreateArgs "PROJ" "Fix login") "priority"
        = some (FieldVal.nameRef "High") := by
  constructor
  · exact (create_issue_field_map demoJiraApi demoCreateArgs "PROJ" "Fix login"
      (by rfl) (by rfl)).1
  · exact (create_issue_field_map demoJiraApi demoCreateArgs "PROJ" "Fix login"
      (by rfl) (by rfl)).2.2.2.2.2.1

/-- C8: in the `_get_issue` projection a missing assignee and a missing
priority stay absent (`none`) rather than becoming empty strings, while
the `_search_issues` projection renders a missing assignee as the
string `Unassigned` and a missing priority as the empty string; both
projections are pure functions of the response, so the defaulting is
the same on every invocation. -/
theorem optional_field_defaulting :
    ∀ (i : RemoteIssue),
      (getIssueDetails { i with fields := { i.fields with assignee := none } }).assignee = none
      ∧ (getIssueDetails { i with fields := { i.fields with priority := none } }).priority = none
      ∧ (searchIssueItem { i with fields := { i.fields with assignee := none } }).assignee
          = "Unassigned"
      ∧ (searchIssueItem { i with fields := { i.fields with priority := none } }).priority = "" := by
  intro i
  exact ⟨rfl, rfl, rfl, rfl⟩

/-- With a retained client, a run of invocations keeps the client and
produces no session-manager events. -/
theorem confRun_some (H : ConfHandlers) (env : ConfEnv) (c : Confluence) :
    ∀ calls, confRun H env (some c) calls = (some c, []) := by
  intro calls
  induction calls with
  | nil => rfl
  | cons inv rest ih =>
    obtain ⟨name, args⟩ := inv
    have hstep : clientAfter (confluenceCallTool H env (some c) name args) (some c) = some c := by
      cases h : confCallToolBody H name args <;>
        simp [confluenceCallTool, h, clientAfter]
    simp [confRun, hstep, ih]

/-- When the configuration is valid, the first invocation of a run with
no retained client reads the environment, constructs the client, and
every later invocation adds nothing. -/
theorem confRun_none_ok (H : ConfHandlers) (env : ConfEnv) (c0 : Confluence)
    (hc : connectToConfluence env = Except.ok c0) :
    ∀ (name : String) (args : Args) rest,
      confRun H env none ((name, args) :: rest)
        = (some c0, [ConnEvent.envRead, ConnEvent.construct]) := by
  intro name args rest
  have hstep : clientAfter (confluenceCallTool H env none name args) none = some c0 := by
    cases h : confCallToolBody H name args <;>
      simp [confluenceCallTool, hc, h, clientAfter]
  simp [confRun, confConnectEvents, hc, hstep, confRun_some]

/-- When the configuration is invalid, no invocation of a run ever
constructs a client. -/
theorem confRun_none_error (H : ConfHandlers) (env : ConfEnv) (e : String)
    (he : connectToConfluence env = Except.error e) :
    ∀ calls, (confRun H env none calls).1 = none
      ∧ (confRun H env none calls).2.count ConnEvent.construct = 0 := by
  intro calls
  induction calls with
  | nil => exact ⟨rfl, rfl⟩
  | cons inv rest ih =>
    obtain ⟨name, args⟩ := inv
    have hstep : clientAfter (confluenceCallTool H env none name args) none = none := by
      simp [confluenceCallTool, he, clientAfter]
    simp [confRun, confConnectEvents, he, hstep, List.count_cons, ih.1, ih.2]

/-- Jira analogue of `confRun_some`. -/
theorem jiraRun_some (H : JiraHandlers) (env : JiraEnv) (c : Jira) :
    ∀ calls, jiraRun H env (some c) calls = (some c, []) := by
  intro calls
  induction calls with
  | nil => rfl
  | cons inv rest ih =>
    obtain ⟨name, args⟩ := inv
    have hstep : clientAfter (jiraCallTool H env (some c) name args) (some c) = some c := by
      cases h : jiraCallToolBody H name args <;>
        simp [jiraCallTool, h, clientAfter]
    simp [jiraRun, hstep, ih]

/-- Jira analogue of `confRun_none_ok`. -/
theorem jiraRun_none_ok (H : JiraHandlers) (env : JiraEnv) (c0 : Jira)
    (hc : connectToJira env = Except.ok c0) :
    ∀ (name : String) (args : Args) rest,
      jiraRun H env none ((name, args) :: rest)
        = (some c0, [ConnEvent.envRead, ConnEvent.construct]) := by
  intro name args rest
  have hstep : clientAfter (jiraCallTool H env none name args) none = some c0 := by
    cases h : jiraCallToolBody H name args <;>
      simp [jiraCallTool, hc, h, clientAfter]
  simp [jiraRun, jiraConnectEvents, hc, hstep, jiraRun_some]

/-- Jira analogue of `confRun_none_error`. -/
theorem jiraRun_none_error (H : JiraHandlers) (env : JiraEnv) (e : String)
    (he : connectToJira env = Except.error e) :
    ∀ calls, (jiraRun H env none calls).1 = none
      ∧ (jiraRun H env none calls).2.count ConnEvent.construct = 0 := by
  intro calls
  induction calls with
  | nil => exact ⟨rfl, rfl⟩
  | cons inv rest ih =>
    obtain ⟨name, args⟩ := inv
    have hstep : clientAfter (jiraCallTool H env none name args) none = none := by
      simp [jiraCallTool, he, clientAfter]
    simp [jiraRun, jiraConnectEvents, he, hstep, List.count_cons, ih.1, ih.2]

/-- C9: across any sequence of tool invocations of one server process
(fixed environment), the backing client is constructed at most once;
the first invocation that finds no retained client reads the
environment and, when the credentials are valid, constructs the client
that every later invocation reuses without further environment reads or
constructions (runs starting from a retained client produce no
session-manager events and never replace the client); for both
servers. -/
theorem client_constructed_once :
    (∀ (H : ConfHandlers) (env : ConfEnv) calls,
        (confRun H env none calls).2.count ConnEvent.construct ≤ 1)
    ∧ (∀ (H : ConfHandlers) (env : ConfEnv) (c : Confluence) calls,
        confRun H env (some c) calls = (some c, []))
    ∧ (∀ (H : ConfHandlers) (env : ConfEnv) (c0 : Confluence) (name : String) (args : Args) rest,
        connectToConfluence env = Except.ok c0 →
        confRun H env none ((name, args) :: rest)
          = (some c0, [ConnEvent.envRead, ConnEvent.construct]))
    ∧ (∀ (H : JiraHandlers) (env : JiraEnv) calls,
        (jiraRun H env none calls).2.count ConnEvent.construct ≤ 1)
    ∧ (∀ (H : JiraHandlers) (env : JiraEnv) (c : Jira) calls,
        jiraRun H env (some c) calls = (some c, []))
    ∧ (∀ (H : JiraHandlers) (env : JiraEnv) (c0 : Jira) (name : String) (args : Args) rest,
        connectToJira env = Except.ok c0 →
        jiraRun H env none ((name, args) :: rest)
          = (some c0, [ConnEvent.envRead, ConnEvent.construct])) := by
  refine ⟨?_, ?_, ?_, ?_, ?_, ?_⟩
  · intro H env calls
    cases hc : connectToConfluence env with
    | error e =>
      rw [(confRun_none_error H env e hc calls).2]
      exact Nat.zero_le 1
    | ok c0 =>
      cases calls with
      | nil => exact Nat.zero_le 1
      | cons inv rest =>
        obtain ⟨name, args⟩ := inv
        rw [confRun_none_ok H env c0 hc name args rest]
        simp [List.count_cons]
  · exact fun H env c calls => confRun_some H env c calls
  · exact fun H env c0 name args rest hc => confRun_none_ok H env c0 hc name args rest
  · intro H env calls
    cases hc : connectToJira env with
    | error e =>
      rw [(jiraRun_none_error H env e hc calls).2]
      exact Nat.zero_le 1
    | ok c0 =>
      cases calls with
      | nil => exact Nat.zero_le 1
      | cons inv rest =>
        obtain ⟨name, args⟩ := inv
        rw [jiraRun_none_ok H env c0 hc name args rest]
        simp [List.count_cons]
  · exact fun H env c calls => jiraRun_some H env c calls
  · exact fun H env c0 name args rest hc => jiraRun_none_ok H env c0 hc name args rest

/-- C9 witness: with a valid environment, a two-invocation run from an
empty client field reads the environment and constructs the client
exactly once. -/
theorem client_constructed_once_witness :
    confRun trivialConfHandlers confEnvSet none
        [("confluence_get_page", []), ("confluence_get_spaces", [])]
      = (some confClient, [ConnEvent.envRead, ConnEvent.construct]) := by
  exact client_constructed_once.2.2.1 trivialConfHandlers confEnvSet confClient
    "confluence_get_page" [] [("confluence_get_spaces", [])] (by rfl)
